import Mathlib

/-!
Verification of the CNY/AUD exchange-rate display component
(`src/exchange-rate-graph.tsx`).

The component fetches a JSON array of exchange-rate observations,
transforms it (parseFloat coercion of the rate strings, a formatted time
label, reversal to chronological order) and renders one of three views:
a loading spinner, an error banner, or the chart with computed vertical
axis bounds.

JavaScript numbers are modelled as extended rationals (`JSNum`): a
rational value, NaN, or a signed infinity.  Rounding error of binary
floating point is abstracted away; every numeric fact proved here is
robust to it.  The locale-dependent `Date` formatting of the timestamp
(lines 33-41 of the source) is an external collaborator and is passed in
as an opaque `formatTime : String → String` parameter.
-/

/-- A JavaScript number: a finite value (modelled as a rational), NaN,
or one of the two infinities. -/
inductive JSNum where
  | num : ℚ → JSNum
  | nan : JSNum
  | posInf : JSNum
  | negInf : JSNum
deriving DecidableEq, Repr

namespace JSNum

/-- JavaScript multiplication on `JSNum` (IEEE-754 rules for the special
values: NaN propagates, infinity times zero is NaN, signs multiply). -/
def mul : JSNum → JSNum → JSNum
  | nan, _ => nan
  | _, nan => nan
  | posInf, posInf => posInf
  | posInf, negInf => negInf
  | negInf, posInf => negInf
  | negInf, negInf => posInf
  | posInf, num b => if 0 < b then posInf else if b < 0 then negInf else nan
  | negInf, num b => if 0 < b then negInf else if b < 0 then posInf else nan
  | num a, posInf => if 0 < a then posInf else if a < 0 then negInf else nan
  | num a, negInf => if 0 < a then negInf else if a < 0 then posInf else nan
  | num a, num b => num (a * b)

/-- Binary `Math.min`: NaN if either argument is NaN, otherwise the
smaller value with the usual ordering of the infinities. -/
def min2 : JSNum → JSNum → JSNum
  | nan, _ => nan
  | _, nan => nan
  | negInf, _ => negInf
  | _, negInf => negInf
  | posInf, y => y
  | x, posInf => x
  | num a, num b => num (min a b)

/-- Binary `Math.max`: NaN if either argument is NaN, otherwise the
larger value. -/
def max2 : JSNum → JSNum → JSNum
  | nan, _ => nan
  | _, nan => nan
  | posInf, _ => posInf
  | _, posInf => posInf
  | negInf, y => y
  | x, negInf => x
  | num a, num b => num (max a b)

/-- Variadic `Math.min(...args)`: the fold of binary min over the
arguments starting from `Infinity` (so `Math.min()` of no arguments is
`Infinity`). -/
def minList (l : List JSNum) : JSNum := l.foldl min2 posInf

/-- Variadic `Math.max(...args)`: the fold of binary max over the
arguments starting from `-Infinity`. -/
def maxList (l : List JSNum) : JSNum := l.foldl max2 negInf

/-- `Math.floor`: identity on NaN and the infinities, floor on finite
values. -/
def floor : JSNum → JSNum
  | nan => nan
  | posInf => posInf
  | negInf => negInf
  | num a => num (⌊a⌋ : ℚ)

/-- `Math.ceil`: identity on NaN and the infinities, ceiling on finite
values. -/
def ceil : JSNum → JSNum
  | nan => nan
  | posInf => posInf
  | negInf => negInf
  | num a => num (⌈a⌉ : ℚ)

end JSNum

/-- Numeric value of a list of decimal digit characters read left to
right (helper for `parseFloat`). -/
def digitsVal (l : List Char) : ℕ :=
  l.foldl (fun a c => a * 10 + (c.toNat - '0'.toNat)) 0

/-- JavaScript `parseFloat` restricted to the plain decimal grammar that
exchange-rate strings use: optional leading spaces, an optional sign, an
integer part, and an optional fractional part after a dot; any trailing
characters are ignored.  If no digit is found the result is NaN. -/
def parseFloat (s : String) : JSNum :=
  let l := s.data.dropWhile (fun c => c = ' ')
  let sign : ℚ := match l with
    | '-' :: _ => -1
    | _ => 1
  let l1 := match l with
    | '-' :: rest => rest
    | '+' :: rest => rest
    | _ => l
  let intPart := l1.takeWhile Char.isDigit
  let l2 := l1.dropWhile Char.isDigit
  let fracPart := match l2 with
    | '.' :: rest => rest.takeWhile Char.isDigit
    | _ => []
  if intPart.isEmpty ∧ fracPart.isEmpty then JSNum.nan
  else JSNum.num (sign * ((digitsVal intPart : ℚ) +
    (digitsVal fracPart : ℚ) / 10 ^ fracPart.length))

/-- One record of the JSON response body: the fields the component
reads.  Rate fields arrive as strings (`src/exchange-rate-graph.tsx`
line 42-43 coerces them with `parseFloat`). -/
structure RawRecord where
  timestamp : String
  buying_rate : String
  selling_rate : String
deriving DecidableEq, Repr

/-- The internal observation shape (`ExchangeRateData` interface, lines
5-10 of the source): coerced numeric rates, the original timestamp kept
by the object spread, and the derived display label. -/
structure ExchangeRateData where
  buying_rate : JSNum
  selling_rate : JSNum
  timestamp : String
  formattedTime : String
deriving DecidableEq, Repr

/-- The body of the `.map` callback (lines 32-45 of the source): spread
the item, compute the `MMM-DD HH:MM` label from the timestamp via the
`Date` collaborator `formatTime`, and coerce both rate strings with
`parseFloat`. -/
def transformRecord (formatTime : String → String) (item : RawRecord) :
    ExchangeRateData :=
  { timestamp := item.timestamp
    formattedTime := formatTime item.timestamp
    buying_rate := parseFloat item.buying_rate
    selling_rate := parseFloat item.selling_rate }

/-- `formattedData` (lines 31-46 of the source): map every record
through the transform, then `.reverse()` to chronological order. -/
def formattedData (formatTime : String → String) (data : List RawRecord) :
    List ExchangeRateData :=
  (data.map (transformRecord formatTime)).reverse

/-- The three pieces of component view state (lines 13-15 of the
source), with their `useState` initial values recorded in
`initialState`. -/
structure ComponentState where
  exchangeData : List ExchangeRateData
  isLoading : Bool
  error : Option String
deriving DecidableEq, Repr

/-- The initial state: empty data array, `isLoading = true`, no error
(lines 13-15 of the source). -/
def initialState : ComponentState :=
  { exchangeData := [], isLoading := true, error := none }

/-- What the environment does when `fetch` is awaited: either the
network call itself throws, or a response arrives with an HTTP status
and a JSON body that either parses to a record array or throws. -/
inductive FetchResult where
  | throws : FetchResult
  | responds (status : ℕ) (json : Except Unit (List RawRecord)) : FetchResult
deriving Repr

/-- The error taxonomy of the fetch routine: the explicit `throw new
Error` on a non-ok status (line 25, carrying the status code), an
exception from `fetch` itself, or an exception from `response.json()`.
All three are caught by the single `catch` at line 51. -/
inductive FetchErrorKind where
  | requestFailed (status : ℕ) : FetchErrorKind
  | fetchException : FetchErrorKind
  | jsonException : FetchErrorKind
deriving DecidableEq, Repr

/-- `response.ok`: the HTTP status is in the 2xx success range. -/
def responseOk (status : ℕ) : Bool := 200 ≤ status ∧ status ≤ 299

/-- The `try` body of `fetchData` (lines 20-49): await the fetch, throw
`requestFailed` on a non-ok status, await the JSON parse, then transform
the array. -/
def tryBody (formatTime : String → String) :
    FetchResult → Except FetchErrorKind (List ExchangeRateData)
  | .throws => .error .fetchException
  | .responds status json =>
    if responseOk status then
      match json with
      | .error _ => .error .jsonException
      | .ok data => .ok (formattedData formatTime data)
    else .error (.requestFailed status)

/-- The one user-visible error message set in the `catch` handler
(line 53 of the source). -/
def errorMessage : String :=
  "Failed to fetch exchange rate data. Please try again later."

/-- The sequence of states produced by one run of `fetchData` starting
from state `s`: `setIsLoading(true)` first, then on success
`setExchangeData` followed by `setIsLoading(false)` (lines 48-49), and
in the `catch` handler `setError` followed by `setIsLoading(false)`
(lines 53-54).  Each `setState` call contributes one state. -/
def fetchDataTrace (formatTime : String → String) (env : FetchResult)
    (s : ComponentState) : List ComponentState :=
  let s1 := { s with isLoading := true }
  match tryBody formatTime env with
  | .ok d =>
    let s2 := { s1 with exchangeData := d }
    [s1, s2, { s2 with isLoading := false }]
  | .error _ =>
    let s2 := { s1 with error := some errorMessage }
    [s1, s2, { s2 with isLoading := false }]

/-- The state after `fetchData` has completed (the last state of the
trace). -/
def fetchData (formatTime : String → String) (env : FetchResult)
    (s : ComponentState) : ComponentState :=
  match tryBody formatTime env with
  | .ok d => { s with exchangeData := d, isLoading := false }
  | .error _ => { s with error := some errorMessage, isLoading := false }

/-- The list of rate values fed to `Math.min`/`Math.max` by the two
spreads (lines 84-85 and 89-90): all buying rates followed by all
selling rates. -/
def allRates (d : List ExchangeRateData) : List JSNum :=
  d.map ExchangeRateData.buying_rate ++ d.map ExchangeRateData.selling_rate

/-- `minRate` (lines 83-86): floor of the minimum over every buying and
selling rate, scaled by 0.998. -/
def minRate (d : List ExchangeRateData) : JSNum :=
  ((JSNum.minList (allRates d)).mul (JSNum.num (998 / 1000))).floor

/-- `maxRate` (lines 88-91): ceiling of the maximum over every buying
and selling rate, scaled by 1.002. -/
def maxRate (d : List ExchangeRateData) : JSNum :=
  ((JSNum.maxList (allRates d)).mul (JSNum.num (1002 / 1000))).ceil

/-- The three user-visible views the component can return: the spinner,
the error banner with its message, or the chart with its data and the
computed vertical axis bounds. -/
inductive View where
  | loading : View
  | errorBanner (message : String) : View
  | chart (data : List ExchangeRateData) (lo hi : JSNum) : View
deriving DecidableEq, Repr

/-- The render function (lines 61-171): the spinner while
`isLoading`, the error banner if `error` is set, otherwise the chart
over `exchangeData` with domain `[minRate, maxRate]`. -/
def render (s : ComponentState) : View :=
  if s.isLoading then .loading
  else
    match s.error with
    | some msg => .errorBanner msg
    | none => .chart s.exchangeData (minRate s.exchangeData) (maxRate s.exchangeData)

/-- The views rendered over one component lifetime: the initial render
in the initial state, then one render after each `setState` of the
single `fetchData` run triggered by the mount effect (line 58).  The
effect has an empty dependency array, so `fetchData` runs exactly
once. -/
def lifecycleViews (formatTime : String → String) (env : FetchResult) :
    List View :=
  (initialState :: fetchDataTrace formatTime env initialState).map render

/-! ### Helper lemmas -/

lemma min2_nan_right (x : JSNum) : x.min2 JSNum.nan = JSNum.nan := by
  cases x <;> rfl

lemma max2_nan_right (x : JSNum) : x.max2 JSNum.nan = JSNum.nan := by
  cases x <;> rfl

lemma foldl_min2_nan (l : List JSNum) :
    l.foldl JSNum.min2 JSNum.nan = JSNum.nan := by
  induction l with
  | nil => rfl
  | cons x xs ih => simp [List.foldl, JSNum.min2, ih]

lemma foldl_max2_nan (l : List JSNum) :
    l.foldl JSNum.max2 JSNum.nan = JSNum.nan := by
  induction l with
  | nil => rfl
  | cons x xs ih => simp [List.foldl, JSNum.max2, ih]

lemma foldl_min2_of_nan_mem (l : List JSNum) (init : JSNum)
    (h : JSNum.nan ∈ l) : l.foldl JSNum.min2 init = JSNum.nan := by
  induction l generalizing init with
  | nil => cases h
  | cons x xs ih =>
    rcases List.mem_cons.mp h with hx | hxs
    · subst hx
      simpa [List.foldl, min2_nan_right] using foldl_min2_nan xs
    · exact ih _ hxs

lemma foldl_max2_of_nan_mem (l : List JSNum) (init : JSNum)
    (h : JSNum.nan ∈ l) : l.foldl JSNum.max2 init = JSNum.nan := by
  induction l generalizing init with
  | nil => cases h
  | cons x xs ih =>
    rcases List.mem_cons.mp h with hx | hxs
    · subst hx
      simpa [List.foldl, max2_nan_right] using foldl_max2_nan xs
    · exact ih _ hxs

lemma foldl_min2_num (l : List ℚ) (a : ℚ) :
    (l.map JSNum.num).foldl JSNum.min2 (JSNum.num a)
      = JSNum.num (l.foldl min a) := by
  induction l generalizing a with
  | nil => rfl
  | cons x xs ih => simp [List.foldl, JSNum.min2, ih]

lemma foldl_max2_num (l : List ℚ) (a : ℚ) :
    (l.map JSNum.num).foldl JSNum.max2 (JSNum.num a)
      = JSNum.num (l.foldl max a) := by
  induction l generalizing a with
  | nil => rfl
  | cons x xs ih => simp [List.foldl, JSNum.max2, ih]

lemma minList_num (a : ℚ) (l : List ℚ) :
    JSNum.minList ((a :: l).map JSNum.num) = JSNum.num (l.foldl min a) := by
  simpa [JSNum.minList, List.foldl, JSNum.min2] using foldl_min2_num l a

lemma maxList_num (a : ℚ) (l : List ℚ) :
    JSNum.maxList ((a :: l).map JSNum.num) = JSNum.num (l.foldl max a) := by
  simpa [JSNum.maxList, List.foldl, JSNum.max2] using foldl_max2_num l a

lemma parseFloat_455 : parseFloat "4.55" = JSNum.num (91 / 20) := by
  have h : parseFloat "4.55"
      = JSNum.num (1 * (((4 : ℕ) : ℚ) + ((55 : ℕ) : ℚ) / 10 ^ (2 : ℕ))) := rfl
  rw [h]; norm_num

lemma parseFloat_460 : parseFloat "4.60" = JSNum.num (23 / 5) := by
  have h : parseFloat "4.60"
      = JSNum.num (1 * (((4 : ℕ) : ℚ) + ((60 : ℕ) : ℚ) / 10 ^ (2 : ℕ))) := rfl
  rw [h]; norm_num

lemma parseFloat_450 : parseFloat "4.50" = JSNum.num (9 / 2) := by
  have h : parseFloat "4.50"
      = JSNum.num (1 * (((4 : ℕ) : ℚ) + ((50 : ℕ) : ℚ) / 10 ^ (2 : ℕ))) := rfl
  rw [h]; norm_num

lemma parseFloat_465 : parseFloat "4.65" = JSNum.num (93 / 20) := by
  have h : parseFloat "4.65"
      = JSNum.num (1 * (((4 : ℕ) : ℚ) + ((65 : ℕ) : ℚ) / 10 ^ (2 : ℕ))) := rfl
  rw [h]; norm_num

lemma parseFloat_abc : parseFloat "abc" = JSNum.nan := rfl

/-- The sample transformed sequence of the spec (§8): buying/selling
pairs 4.55/4.60 and 4.50/4.65 (timestamp and label irrelevant to the
domain computation). -/
def sampleData : List ExchangeRateData :=
  [{ buying_rate := JSNum.num (455 / 100), selling_rate := JSNum.num (460 / 100),
     timestamp := "t1", formattedTime := "l1" },
   { buying_rate := JSNum.num (450 / 100), selling_rate := JSNum.num (465 / 100),
     timestamp := "t2", formattedTime := "l2" }]

/-! ### Claim theorems -/

/-- Concrete inputs used by the witnesses. -/
def wft : String → String := fun _ => "Jan-01 00:00"

def wData : List RawRecord :=
  [{ timestamp := "a", buying_rate := "4.55", selling_rate := "4.60" },
   { timestamp := "b", buying_rate := "4.50", selling_rate := "4.65" }]

/-- C1: for every successfully fetched response array, the transformed
sequence handed to the chart has the same length as the input and its
`i`-th element is the transform of the input's `(length - 1 - i)`-th
element — the exact element-by-element reverse of the server's
newest-first order, with nothing dropped, added or reordered — and the
rendered view is the chart over exactly that sequence. -/
theorem fetched_sequence_is_reversed (ft : String → String)
    (data : List RawRecord) (i : ℕ) (h : i < data.length) :
    (formattedData ft data).length = data.length ∧
    (formattedData ft data)[i]? =
      (data[data.length - 1 - i]?).map (transformRecord ft) ∧
    render (fetchData ft (.responds 200 (.ok data)) initialState) =
      View.chart (formattedData ft data) (minRate (formattedData ft data))
        (maxRate (formattedData ft data)) := by
  refine ⟨by simp [formattedData], ?_, ?_⟩
  · have h1 : i < (data.map (transformRecord ft)).length := by simpa using h
    rw [formattedData, List.getElem?_reverse h1]
    simp [List.getElem?_map]
  · have hok : tryBody ft (.responds 200 (.ok data))
        = .ok (formattedData ft data) := by
      simp [tryBody, responseOk]
    simp [fetchData, hok, render, initialState]

theorem fetched_sequence_is_reversed_witness :
    0 < wData.length ∧
    ((formattedData wft wData).length = wData.length ∧
     (formattedData wft wData)[0]? =
       (wData[wData.length - 1 - 0]?).map (transformRecord wft) ∧
     render (fetchData wft (.responds 200 (.ok wData)) initialState) =
       View.chart (formattedData wft wData) (minRate (formattedData wft wData))
         (maxRate (formattedData wft wData))) :=
  ⟨by decide, fetched_sequence_is_reversed wft wData 0 (by decide)⟩

/-- C2: for every non-empty transformed sequence whose rates are the
finite values `a :: l`, the vertical axis bounds are
`minRate = floor(min * 0.998)` and `maxRate = ceil(max * 1.002)`; at the
spec's sample pairs 4.55/4.60 and 4.50/4.65 this evaluates to
`minRate = 4` and `maxRate = 5`. -/
theorem axis_bounds_padding (d : List ExchangeRateData) (a : ℚ) (l : List ℚ)
    (h : allRates d = (a :: l).map JSNum.num) :
    minRate d = JSNum.num ((⌊(l.foldl min a) * (998 / 1000 : ℚ)⌋ : ℤ) : ℚ) ∧
    maxRate d = JSNum.num ((⌈(l.foldl max a) * (1002 / 1000 : ℚ)⌉ : ℤ) : ℚ) ∧
    minRate sampleData = JSNum.num 4 ∧ maxRate sampleData = JSNum.num 5 := by
  have general : ∀ (d' : List ExchangeRateData) (a' : ℚ) (l' : List ℚ),
      allRates d' = (a' :: l').map JSNum.num →
      minRate d' = JSNum.num ((⌊(l'.foldl min a') * (998 / 1000 : ℚ)⌋ : ℤ) : ℚ) ∧
      maxRate d' = JSNum.num ((⌈(l'.foldl max a') * (1002 / 1000 : ℚ)⌉ : ℤ) : ℚ) := by
    intro d' a' l' h'
    constructor
    · rw [minRate, h', minList_num]
      simp [JSNum.mul, JSNum.floor]
    · rw [maxRate, h', maxList_num]
      simp [JSNum.mul, JSNum.ceil]
  have hs : allRates sampleData
      = ((455 / 100 : ℚ) :: [450 / 100, 460 / 100, 465 / 100]).map JSNum.num := rfl
  obtain ⟨hmin, hmax⟩ := general sampleData _ _ hs
  refine ⟨(general d a l h).1, (general d a l h).2, ?_, ?_⟩
  · rw [hmin]
    norm_num [List.foldl, min_def]
  · rw [hmax]
    have hc : (⌈(46593 : ℚ) / 10000⌉ : ℤ) = 5 := by
      rw [Int.ceil_eq_iff]
      norm_num
    norm_num [List.foldl, max_def, hc]

theorem axis_bounds_padding_witness :
    allRates sampleData
      = ((455 / 100 : ℚ) :: [450 / 100, 460 / 100, 465 / 100]).map JSNum.num ∧
    (minRate sampleData = JSNum.num
        ((⌊(([450 / 100, 460 / 100, 465 / 100] : List ℚ).foldl min (455 / 100))
            * (998 / 1000 : ℚ)⌋ : ℤ) : ℚ) ∧
     maxRate sampleData = JSNum.num
        ((⌈(([450 / 100, 460 / 100, 465 / 100] : List ℚ).foldl max (455 / 100))
            * (1002 / 1000 : ℚ)⌉ : ℤ) : ℚ) ∧
     minRate sampleData = JSNum.num 4 ∧ maxRate sampleData = JSNum.num 5) :=
  ⟨rfl, axis_bounds_padding sampleData _ _ rfl⟩

/-- C3: for every response with a non-2xx status, the try body fails
with the `requestFailed` condition carrying the status code, the final
state is the error state (no data set), the rendered view is the error
banner, and no view of the whole lifecycle is ever the chart (`Ready` is
never reached). -/
theorem non2xx_never_ready (ft : String → String) (status : ℕ)
    (json : Except Unit (List RawRecord)) (h : responseOk status = false) :
    tryBody ft (.responds status json) = .error (.requestFailed status) ∧
    fetchData ft (.responds status json) initialState =
      { exchangeData := [], isLoading := false, error := some errorMessage } ∧
    render (fetchData ft (.responds status json) initialState) =
      .errorBanner errorMessage ∧
    ∀ v ∈ lifecycleViews ft (.responds status json), ∀ d lo hi,
      v ≠ View.chart d lo hi := by
  have ht : tryBody ft (.responds status json)
      = .error (.requestFailed status) := by
    simp [tryBody, h]
  refine ⟨ht, by simp [fetchData, ht, initialState], ?_, ?_⟩
  · simp [fetchData, ht, initialState, render]
  · intro v hv d lo hi
    simp [lifecycleViews, fetchDataTrace, ht, render, initialState] at hv
    rcases hv with h1 | h1 <;> simp [h1]

theorem non2xx_never_ready_witness :
    responseOk 404 = false ∧
    (tryBody wft (.responds 404 (.ok wData))
        = .error (.requestFailed 404) ∧
     fetchData wft (.responds 404 (.ok wData)) initialState =
       { exchangeData := [], isLoading := false, error := some errorMessage } ∧
     render (fetchData wft (.responds 404 (.ok wData)) initialState) =
       .errorBanner errorMessage ∧
     ∀ v ∈ lifecycleViews wft (.responds 404 (.ok wData)), ∀ d lo hi,
       v ≠ View.chart d lo hi) :=
  ⟨by decide, non2xx_never_ready wft 404 (.ok wData) (by decide)⟩

/-- C4: every failure cause — non-2xx HTTP status, network exception,
or JSON parse failure — produces the error banner with the one shared
user-visible message, and any two failure causes produce identical final
component states: only the try body's error value (the diagnostic log)
distinguishes them. -/
theorem failure_taxonomy_collapsed (ft : String → String)
    (env1 env2 : FetchResult) (e1 e2 : FetchErrorKind)
    (h1 : tryBody ft env1 = .error e1) (h2 : tryBody ft env2 = .error e2) :
    render (fetchData ft env1 initialState) = .errorBanner errorMessage ∧
    fetchData ft env1 initialState = fetchData ft env2 initialState := by
  constructor
  · simp [fetchData, h1, render, initialState]
  · simp [fetchData, h1, h2]

theorem failure_taxonomy_collapsed_witness :
    tryBody wft (.responds 500 (.ok wData))
        = .error (.requestFailed 500) ∧
    tryBody wft .throws = .error .fetchException ∧
    FetchErrorKind.requestFailed 500 ≠ FetchErrorKind.fetchException ∧
    (render (fetchData wft (.responds 500 (.ok wData)) initialState) =
        .errorBanner errorMessage ∧
     fetchData wft (.responds 500 (.ok wData)) initialState =
       fetchData wft .throws initialState) :=
  ⟨by simp [tryBody, responseOk], rfl, by simp,
   failure_taxonomy_collapsed wft (.responds 500 (.ok wData)) .throws
     (.requestFailed 500) .fetchException (by simp [tryBody, responseOk]) rfl⟩

/-- C5: the empty-array response succeeds: the try body returns the
empty series, the final state is `Ready` (loading off, no error, empty
data), and the rendered view is the chart over the empty series — the
domain computation on the empty collection still yields values (the
model is total: no exception is possible). -/
theorem empty_response_reaches_ready (ft : String → String) :
    tryBody ft (.responds 200 (.ok [])) = .ok [] ∧
    fetchData ft (.responds 200 (.ok [])) initialState =
      { exchangeData := [], isLoading := false, error := none } ∧
    render (fetchData ft (.responds 200 (.ok [])) initialState) =
      View.chart [] (minRate []) (maxRate []) := by
  have ht : tryBody ft (.responds 200 (.ok [])) = .ok [] := by
    simp [tryBody, responseOk, formattedData]
  refine ⟨ht, by simp [fetchData, ht, initialState], ?_⟩
  simp [fetchData, ht, initialState, render]

/-- C6: for every record of a successful response, the transformed
record's rates are exactly the `parseFloat` coercions of the record's
rate strings, the transformed record is in the sequence handed to the
chart, and both coerced numbers are among the values the domain
computation consumes. -/
theorem rates_are_parseFloat_coercions (ft : String → String)
    (data : List RawRecord) (item : RawRecord) (h : item ∈ data) :
    (transformRecord ft item).buying_rate = parseFloat item.buying_rate ∧
    (transformRecord ft item).selling_rate = parseFloat item.selling_rate ∧
    transformRecord ft item ∈ formattedData ft data ∧
    parseFloat item.buying_rate ∈ allRates (formattedData ft data) ∧
    parseFloat item.selling_rate ∈ allRates (formattedData ft data) ∧
    render (fetchData ft (.responds 200 (.ok data)) initialState) =
      View.chart (formattedData ft data) (minRate (formattedData ft data))
        (maxRate (formattedData ft data)) := by
  have hmem : transformRecord ft item ∈ formattedData ft data := by
    simp only [formattedData, List.mem_reverse, List.mem_map]
    exact ⟨item, h, rfl⟩
  refine ⟨rfl, rfl, hmem, ?_, ?_, ?_⟩
  · apply List.mem_append_left
    exact List.mem_map.mpr ⟨transformRecord ft item, hmem, rfl⟩
  · apply List.mem_append_right
    exact List.mem_map.mpr ⟨transformRecord ft item, hmem, rfl⟩
  · have hok : tryBody ft (.responds 200 (.ok data))
        = .ok (formattedData ft data) := by
      simp [tryBody, responseOk]
    simp [fetchData, hok, render, initialState]

theorem rates_are_parseFloat_coercions_witness :
    (⟨"a", "4.55", "4.60"⟩ : RawRecord) ∈ wData ∧
    parseFloat "4.55" = JSNum.num (91 / 20) ∧
    parseFloat "4.60" = JSNum.num (23 / 5) ∧
    ((transformRecord wft ⟨"a", "4.55", "4.60"⟩).buying_rate
        = parseFloat "4.55" ∧
     (transformRecord wft ⟨"a", "4.55", "4.60"⟩).selling_rate
        = parseFloat "4.60" ∧
     transformRecord wft ⟨"a", "4.55", "4.60"⟩ ∈ formattedData wft wData ∧
     parseFloat "4.55" ∈ allRates (formattedData wft wData) ∧
     parseFloat "4.60" ∈ allRates (formattedData wft wData) ∧
     render (fetchData wft (.responds 200 (.ok wData)) initialState) =
       View.chart (formattedData wft wData) (minRate (formattedData wft wData))
         (maxRate (formattedData wft wData))) :=
  ⟨by decide, parseFloat_455, parseFloat_460,
   rates_are_parseFloat_coercions wft wData ⟨"a", "4.55", "4.60"⟩ (by decide)⟩

/-- C7: the presenter starts in the `Loading` view, every intermediate
render during the single `fetchData` run is still `Loading`, and the
lifetime's view sequence ends with exactly one transition to a terminal
non-`Loading` view — the chart (`Ready`) or the error banner — with no
later state, so no transition back to `Loading` ever occurs. -/
theorem presenter_state_machine (ft : String → String) (env : FetchResult) :
    ∃ v, lifecycleViews ft env = [.loading, .loading, .loading, v] ∧
      v ≠ View.loading ∧
      ((∃ d lo hi, v = View.chart d lo hi) ∨ v = View.errorBanner errorMessage) := by
  cases h : tryBody ft env with
  | ok d =>
    refine ⟨View.chart d (minRate d) (maxRate d), ?_, by simp, ?_⟩
    · simp [lifecycleViews, fetchDataTrace, h, render, initialState]
    · exact Or.inl ⟨d, minRate d, maxRate d, rfl⟩
  | error e =>
    refine ⟨View.errorBanner errorMessage, ?_, by simp, Or.inr rfl⟩
    simp [lifecycleViews, fetchDataTrace, h, render, initialState]

/-- C8: a record whose buying-rate string does not parse (`parseFloat`
gives NaN) is neither rejected nor filtered: the transformed sequence
keeps its full length, contains the record with its NaN rate, the
component still reaches the chart (`Ready`) view, and the NaN propagates
unchecked through the domain computation, making both axis bounds
NaN. -/
theorem nan_rates_flow_unchecked (ft : String → String)
    (data : List RawRecord) (item : RawRecord) (hmem : item ∈ data)
    (hb : parseFloat item.buying_rate = JSNum.nan) :
    (transformRecord ft item).buying_rate = JSNum.nan ∧
    (formattedData ft data).length = data.length ∧
    transformRecord ft item ∈ formattedData ft data ∧
    minRate (formattedData ft data) = JSNum.nan ∧
    maxRate (formattedData ft data) = JSNum.nan ∧
    render (fetchData ft (.responds 200 (.ok data)) initialState) =
      View.chart (formattedData ft data) JSNum.nan JSNum.nan := by
  have hm : transformRecord ft item ∈ formattedData ft data := by
    simp only [formattedData, List.mem_reverse, List.mem_map]
    exact ⟨item, hmem, rfl⟩
  have hnan : JSNum.nan ∈ allRates (formattedData ft data) := by
    apply List.mem_append_left
    exact List.mem_map.mpr ⟨transformRecord ft item, hm, by simp [transformRecord, hb]⟩
  have hmin : minRate (formattedData ft data) = JSNum.nan := by
    rw [minRate, JSNum.minList, foldl_min2_of_nan_mem _ _ hnan]
    rfl
  have hmax : maxRate (formattedData ft data) = JSNum.nan := by
    rw [maxRate, JSNum.maxList, foldl_max2_of_nan_mem _ _ hnan]
    rfl
  have hok : tryBody ft (.responds 200 (.ok data))
      = .ok (formattedData ft data) := by
    simp [tryBody, responseOk]
  refine ⟨by simp [transformRecord, hb], by simp [formattedData], hm, hmin, hmax, ?_⟩
  simp [fetchData, hok, render, initialState, hmin, hmax]

theorem nan_rates_flow_unchecked_witness :
    (⟨"t", "abc", "xyz"⟩ : RawRecord) ∈ [(⟨"t", "abc", "xyz"⟩ : RawRecord)] ∧
    parseFloat "abc" = JSNum.nan ∧
    ((transformRecord wft ⟨"t", "abc", "xyz"⟩).buying_rate = JSNum.nan ∧
     (formattedData wft [⟨"t", "abc", "xyz"⟩]).length
        = ([(⟨"t", "abc", "xyz"⟩ : RawRecord)]).length ∧
     transformRecord wft ⟨"t", "abc", "xyz"⟩
        ∈ formattedData wft [⟨"t", "abc", "xyz"⟩] ∧
     minRate (formattedData wft [⟨"t", "abc", "xyz"⟩]) = JSNum.nan ∧
     maxRate (formattedData wft [⟨"t", "abc", "xyz"⟩]) = JSNum.nan ∧
     render (fetchData wft (.responds 200 (.ok [⟨"t", "abc", "xyz"⟩])) initialState) =
       View.chart (formattedData wft [⟨"t", "abc", "xyz"⟩]) JSNum.nan JSNum.nan) :=
  ⟨by decide, parseFloat_abc,
   nan_rates_flow_unchecked wft [⟨"t", "abc", "xyz"⟩] ⟨"t", "abc", "xyz"⟩
     (by decide) parseFloat_abc⟩

/-- C9: on the empty transformed sequence the spread into `Math.min`
evaluates to positive infinity and the spread into `Math.max` to
negative infinity, and scaling and rounding preserve them, so the
computed axis bounds are the inverted degenerate pair
`[Infinity, -Infinity]`; no guard for the empty case exists in the
computation. -/
theorem empty_domain_is_inverted :
    JSNum.minList (allRates []) = JSNum.posInf ∧
    JSNum.maxList (allRates []) = JSNum.negInf ∧
    minRate [] = JSNum.posInf ∧ maxRate [] = JSNum.negInf := by
  have hb : (0 : ℚ) < 998 / 1000 := by norm_num
  have hc : (0 : ℚ) < 1002 / 1000 := by norm_num
  refine ⟨rfl, rfl, ?_, ?_⟩
  · simp [minRate, allRates, JSNum.minList, JSNum.mul, JSNum.floor, hb]
  · simp [maxRate, allRates, JSNum.maxList, JSNum.mul, JSNum.ceil, hc]

/-- C10: on any failure the fetch routine updates only the error
message and the loading flag: the data state is exactly the old one, so
from the initial state the error view never coexists with fetched data
(`exchangeData` stays the initial empty array). -/
theorem error_path_is_atomic (ft : String → String) (env : FetchResult)
    (s : ComponentState) (e : FetchErrorKind)
    (h : tryBody ft env = .error e) :
    fetchData ft env s =
      { exchangeData := s.exchangeData, isLoading := false,
        error := some errorMessage } ∧
    (fetchData ft env s).exchangeData = s.exchangeData ∧
    (fetchData ft env initialState).exchangeData = [] := by
  refine ⟨by simp [fetchData, h], by simp [fetchData, h],
    by simp [fetchData, h, initialState]⟩

theorem error_path_is_atomic_witness :
    tryBody wft FetchResult.throws = .error .fetchException ∧
    (fetchData wft FetchResult.throws initialState =
      { exchangeData := initialState.exchangeData, isLoading := false,
        error := some errorMessage } ∧
     (fetchData wft FetchResult.throws initialState).exchangeData
        = initialState.exchangeData ∧
     (fetchData wft FetchResult.throws initialState).exchangeData = []) :=
  ⟨rfl, error_path_is_atomic wft FetchResult.throws initialState
    FetchErrorKind.fetchException rfl⟩
